import Mathlib

/-!
Shallow embedding of the credit-scoring pipeline
(`src/xai_credit_scoring/flask_api.py`, `src/xai_credit_scoring/app.py`,
`src/xai_credit_scoring/pan_api_client.py`,
`src/hackthon_3/src/fairness/metrics.py`), together with theorems that
settle the specification claims about it.

Conventions: Python floats are modelled as exact rationals (`ℚ`); Python
`int` as `ℤ`; Python dicts of features as association lists or total
functions on feature names; a Pandas mean over an empty selection (which
is `NaN` in Python) is modelled as `Option.none`.
-/

/-- Feature declaration order, `FEATURE_NAMES` in `flask_api.py`
(order matters: it is the model's training order). -/
def FEATURE_NAMES : List String :=
  ["checking_status", "duration", "credit_history", "purpose",
   "credit_amount", "savings_status", "employment", "installment_commitment",
   "personal_status", "other_parties", "residence_since", "property_magnitude",
   "age", "other_payment_plans", "housing", "existing_credits",
   "job", "num_dependents", "own_telephone", "foreign_worker"]

/-- Python's `int(x)` applied to a real value: truncation toward zero. -/
def pyInt (x : ℚ) : ℤ := if 0 ≤ x then ⌊x⌋ else ⌈x⌉

/-- `cibil_score` in `flask_api.py`: `int(900 - prob * 600)`
(identical formula to `cibil` in `app.py`). -/
def cibil_score (prob : ℚ) : ℤ := pyInt (900 - prob * 600)

/-- The score the `/api/predict` endpoint reports for a record, given the
(opaque) risk model's probability output: `score = cibil_score(prob)`. -/
def predict_score (mdl : (String → ℚ) → ℚ) (record : String → ℚ) : ℤ :=
  cibil_score (mdl record)

/-- The dict returned by `get_decision` in `flask_api.py`. -/
structure DecisionInfo where
  decision : String
  color : String
  reason : String
deriving DecidableEq

/-- `get_decision` in `flask_api.py`. -/
def get_decision (score : ℤ) : DecisionInfo :=
  if 750 ≤ score then
    ⟨"AUTO-APPROVED", "green", "Excellent creditworthiness"⟩
  else if 650 ≤ score then
    ⟨"MANUAL REVIEW", "yellow", "Good profile, needs underwriter check"⟩
  else if 550 ≤ score then
    ⟨"MANUAL REVIEW", "orange", "Fair profile, higher scrutiny needed"⟩
  else
    ⟨"REJECTED", "red", "High default risk"⟩

/-- The decision badge rendered by the `tab_pan` section of `app.py`
(line 614): `'✅ AUTO-APPROVED' if score>=750 else
('⚠️ MANUAL REVIEW' if score>=600 else '❌ REJECTED')`. -/
def tab_pan_badge (score : ℤ) : String :=
  if 750 ≤ score then "✅ AUTO-APPROVED"
  else if 600 ≤ score then "⚠️ MANUAL REVIEW"
  else "❌ REJECTED"

/-- The four decision bands named by the spec. -/
inductive Band4 where
  | autoApprove
  | reviewGood
  | reviewFair
  | reject
deriving DecidableEq

/-- The coarse three-way outcome (approve / review / reject). -/
inductive Band3 where
  | approve
  | review
  | reject
deriving DecidableEq

/-- Classify a `get_decision` result by its observable strings. -/
def decisionBand4 (d : DecisionInfo) : Band4 :=
  if d.decision = "AUTO-APPROVED" then .autoApprove
  else if d.decision = "MANUAL REVIEW" ∧
          d.reason = "Good profile, needs underwriter check" then .reviewGood
  else if d.decision = "MANUAL REVIEW" then .reviewFair
  else .reject

/-- Coarsen a `get_decision` result to approve/review/reject. -/
def decisionBand3 (d : DecisionInfo) : Band3 :=
  if d.decision = "AUTO-APPROVED" then .approve
  else if d.decision = "MANUAL REVIEW" then .review
  else .reject

/-- Classify the `app.py` badge string to approve/review/reject. -/
def badgeBand3 (s : String) : Band3 :=
  if s = "✅ AUTO-APPROVED" then .approve
  else if s = "⚠️ MANUAL REVIEW" then .review
  else .reject

/-- Modelled from the spec's words (not from the source): the spec's
Score Mapper formula `round(clamp(UPPER - probability * SPAN, LOWER,
UPPER))` with `UPPER=900`, `LOWER=300`, `SPAN=600`. -/
def specScore (p : ℚ) : ℤ := round (min (max (900 - p * 600) 300) 900)

/-- Modelled from the spec's words: the band table
`score>=750 -> AUTO_APPROVE`, `650<=score<750 -> REVIEW(good)`,
`550<=score<650 -> REVIEW(fair)`, `score<550 -> REJECT`. -/
def specBand (s : ℤ) : Band4 :=
  if 750 ≤ s then .autoApprove
  else if 650 ≤ s ∧ s < 750 then .reviewGood
  else if 550 ≤ s ∧ s < 650 then .reviewFair
  else .reject

/-- C1 (counterexample): at probability `p = 1/2000` the code returns
`int(899.7) = 899`, while the claimed formula
`round(clamp(900 - p*600, 300, 900))` gives `900`. -/
theorem c1_counterexample :
    cibil_score (1 / 2000) = 899 ∧ specScore (1 / 2000) = 900 ∧
      cibil_score (1 / 2000) ≠ specScore (1 / 2000) := by
  have h1 : cibil_score (1 / 2000) = 899 := by
    simp only [cibil_score, pyInt]
    rw [if_pos (by norm_num),
      show (900 : ℚ) - 1 / 2000 * 600 = 8997 / 10 by norm_num]
    apply Int.floor_eq_iff.mpr
    constructor <;> norm_num
  have h2 : specScore (1 / 2000) = 900 := by
    simp only [specScore]
    rw [show min (max ((900 : ℚ) - 1 / 2000 * 600) 300) 900 = 8997 / 10 by
          rw [max_eq_left (by norm_num), min_eq_left (by norm_num)]; norm_num,
      round_eq, show (8997 : ℚ) / 10 + 1 / 2 = 9002 / 10 by norm_num]
    apply Int.floor_eq_iff.mpr
    constructor <;> norm_num
  exact ⟨h1, h2, by rw [h1, h2]; decide⟩

/-- C1 (amended): the Score Mapper truncates rather than rounds — it
returns `int(900 - p*600)` (truncation toward zero, with no clamping
step) — but for every probability `p ∈ [0,1]` that score equals
`⌊900 - 600 p⌋` and still lies in the bounded range 300 to 900. -/
theorem c1_score_range (p : ℚ) (h0 : 0 ≤ p) (h1 : p ≤ 1) :
    cibil_score p = ⌊(900 : ℚ) - p * 600⌋ ∧
      300 ≤ cibil_score p ∧ cibil_score p ≤ 900 := by
  have hx : (300 : ℚ) ≤ 900 - p * 600 := by nlinarith
  have hx' : (0 : ℚ) ≤ 900 - p * 600 := by linarith
  have hy : (900 : ℚ) - p * 600 ≤ 900 := by nlinarith
  have he : cibil_score p = ⌊(900 : ℚ) - p * 600⌋ := by
    simp [cibil_score, pyInt, hx']
  refine ⟨he, ?_, ?_⟩
  · rw [he]
    exact_mod_cast Int.le_floor.mpr (by exact_mod_cast hx)
  · rw [he]
    have := Int.floor_le_floor hy
    simpa using this

/-- C1 witness: instantiate at `p = 1/2`. -/
theorem c1_score_range_witness :
    cibil_score (1 / 2) = ⌊(900 : ℚ) - (1 / 2) * 600⌋ ∧
      300 ≤ cibil_score (1 / 2) ∧ cibil_score (1 / 2) ≤ 900 :=
  c1_score_range (1 / 2) (by norm_num) (by norm_num)

/-- C2: the Score Mapper is monotonically non-increasing on `[0,1]`:
`p1 < p2` implies `cibil_score p1 ≥ cibil_score p2`. -/
theorem c2_score_monotone (p1 p2 : ℚ) (_h0 : 0 ≤ p1) (h12 : p1 < p2)
    (h1 : p2 ≤ 1) : cibil_score p2 ≤ cibil_score p1 := by
  have hx1 : (0 : ℚ) ≤ 900 - p1 * 600 := by nlinarith
  have hx2 : (0 : ℚ) ≤ 900 - p2 * 600 := by nlinarith
  have hle : (900 : ℚ) - p2 * 600 ≤ 900 - p1 * 600 := by nlinarith
  simp only [cibil_score, pyInt, hx1, hx2, if_pos]
  exact Int.floor_le_floor hle

/-- C2 witness: instantiate at `p1 = 0`, `p2 = 1`. -/
theorem c2_score_monotone_witness : cibil_score 1 ≤ cibil_score 0 :=
  c2_score_monotone 0 1 (by norm_num) (by norm_num) (by norm_num)

/-- C3 (counterexample): at score 560 the API's `get_decision` yields a
MANUAL REVIEW outcome while the dashboard badge in `app.py` yields
REJECTED, so the band assignment is not the same everywhere a decision
is derived from a score. -/
theorem c3_counterexample :
    decisionBand3 (get_decision 560) = Band3.review ∧
      badgeBand3 (tab_pan_badge 560) = Band3.reject ∧
      decisionBand3 (get_decision 560) ≠ badgeBand3 (tab_pan_badge 560) := by
  refine ⟨by decide, by decide, by decide⟩

/-- C3 (amended): `get_decision` realises exactly the documented band
partition — for every score, `score>=750 -> AUTO_APPROVE`,
`650<=score<750 -> REVIEW(good)`, `550<=score<650 -> REVIEW(fair)`,
`score<550 -> REJECT`, boundaries resolving to the upper side — but this
assignment is not shared by the dashboard badge, which switches from
review to reject at 600 instead of 550. -/
theorem c3_bands (s : ℤ) :
    decisionBand4 (get_decision s) = specBand s ∧
      badgeBand3 (tab_pan_badge s) =
        (if 750 ≤ s then Band3.approve
         else if 600 ≤ s then Band3.review else Band3.reject) := by
  constructor
  · simp only [get_decision, specBand, decisionBand4]
    split_ifs with h1 h2 h3 <;> simp_all
  · simp only [tab_pan_badge, badgeBand3]
    split_ifs <;> simp_all

/-- C3 witness: instantiate the amended band theorem at score 700. -/
theorem c3_bands_witness :
    decisionBand4 (get_decision 700) = specBand 700 ∧
      badgeBand3 (tab_pan_badge 700) =
        (if (750 : ℤ) ≤ 700 then Band3.approve
         else if (600 : ℤ) ≤ 700 then Band3.review else Band3.reject) :=
  c3_bands 700

/-- The keys of a JSON request body, modelled as an association list of
feature name to numeric value. -/
def recordKeys (data : List (String × ℚ)) : List String := data.map Prod.fst

/-- `missing = [f for f in FEATURE_NAMES if f not in data]` in the
`/api/predict` endpoint of `flask_api.py`. -/
def missingFeatures (data : List (String × ℚ)) : List String :=
  FEATURE_NAMES.filter (fun f => ¬ f ∈ recordKeys data)

/-- The `/api/predict` endpoint's schema validation: the request body is
accepted (not answered with a 400 "Missing features" error) iff the
`missing` list is empty. -/
def predictAccepts (data : List (String × ℚ)) : Bool :=
  missingFeatures data = []

/-- C7 (counterexample): a record holding all 20 trained features plus
the extra key `"unexpected_key"` is accepted by the scoring call's
validation, not rejected: extra keys are silently ignored. -/
theorem c7_counterexample :
    predictAccepts
        ((FEATURE_NAMES.map fun f => (f, (0 : ℚ))) ++ [("unexpected_key", 0)])
      = true ∧
    "unexpected_key" ∈ recordKeys
        ((FEATURE_NAMES.map fun f => (f, (0 : ℚ))) ++ [("unexpected_key", 0)]) ∧
    "unexpected_key" ∉ FEATURE_NAMES := by
  refine ⟨by decide, by decide, by decide⟩

/-- C7 (amended): the scoring call rejects a record with a missing
required key before invoking the model, but it does not reject extra
keys: the request is accepted exactly when every trained feature name is
among the record's keys, whatever else the record contains. -/
theorem c7_schema_validation (data : List (String × ℚ)) :
    predictAccepts data = true ↔ ∀ f ∈ FEATURE_NAMES, f ∈ recordKeys data := by
  simp only [predictAccepts, missingFeatures, decide_eq_true_eq,
    List.filter_eq_nil_iff, decide_not, Bool.not_eq_true', decide_eq_false_iff_not,
    not_not]

/-- C7 witness: a record with exactly the 20 trained features is
accepted. -/
theorem c7_schema_validation_witness :
    predictAccepts (FEATURE_NAMES.map fun f => (f, (0 : ℚ))) = true :=
  (c7_schema_validation (FEATURE_NAMES.map fun f => (f, (0 : ℚ)))).mpr
    (by decide)

/-- The JSON fields of the `/api/simulate` response that the claims are
about. -/
structure SimResult where
  base_score : ℤ
  mod_score : ℤ
  base_prob : ℚ
  mod_prob : ℚ
  score_change : ℤ
  improved : Bool
  changes_made : List (String × ℚ × ℚ)

/-- The `/api/simulate` endpoint of `flask_api.py`, for two same-schema
records (total maps from feature name to value) and the opaque risk
model `mdl`: scores both records with `cibil_score`, reports
`score_change = mod_score - base_score`, and collects into
`changes_made` the old/new pair of every feature whose value differs. -/
def simulate (mdl : (String → ℚ) → ℚ) (base modified : String → ℚ) :
    SimResult :=
  let base_prob := mdl base
  let mod_prob := mdl modified
  let base_score := cibil_score base_prob
  let mod_score := cibil_score mod_prob
  { base_score := base_score
    mod_score := mod_score
    base_prob := base_prob
    mod_prob := mod_prob
    score_change := mod_score - base_score
    improved := decide (base_score < mod_score)
    changes_made :=
      (FEATURE_NAMES.filter fun f => ¬ base f = modified f).map
        (fun f => (f, base f, modified f)) }

/-- C8: the what-if simulation's `score_change` equals exactly the
difference of the scoring call's scores of the two records, and
`changes_made` contains exactly the feature keys on which the two
records differ, each with its old and new value (unchanged keys
omitted). -/
theorem c8_simulate_delta (mdl : (String → ℚ) → ℚ) (A B : String → ℚ) :
    (simulate mdl A B).score_change = predict_score mdl B - predict_score mdl A
  ∧ (∀ f o n, (f, o, n) ∈ (simulate mdl A B).changes_made →
      f ∈ FEATURE_NAMES ∧ A f ≠ B f ∧ o = A f ∧ n = B f)
  ∧ (∀ f ∈ FEATURE_NAMES, A f ≠ B f →
      (f, A f, B f) ∈ (simulate mdl A B).changes_made) := by
  refine ⟨rfl, ?_, ?_⟩
  · intro f o n h
    simp only [simulate, List.mem_map, List.mem_filter,
      decide_eq_true_eq] at h
    obtain ⟨g, ⟨hg1, hg2⟩, heq⟩ := h
    obtain ⟨rfl, rfl, rfl⟩ := Prod.mk.injEq .. ▸ heq
    · exact ⟨hg1, hg2, rfl, rfl⟩
  · intro f hf hne
    simp only [simulate, List.mem_map, List.mem_filter, decide_eq_true_eq]
    exact ⟨f, ⟨hf, hne⟩, rfl⟩

/-- C8 witness: changing only `duration` from 0 to 1 puts exactly that
old/new pair into `changes_made`. -/
theorem c8_simulate_delta_witness :
    ("duration", (0 : ℚ), (1 : ℚ)) ∈
      (simulate (fun _ => 0) (fun _ => 0)
        (fun f => if f = "duration" then 1 else 0)).changes_made :=
  (c8_simulate_delta (fun _ => 0) (fun _ => 0)
      (fun f => if f = "duration" then 1 else 0)).2.2
    "duration" (by decide) (by norm_num)

/-- One entry of the `shap_explanation` mapping built by `/api/predict`:
feature name, SHAP contribution `value`, and the `impact` direction
string. -/
structure ShapEntry where
  feature : String
  value : ℚ
  impact : String
deriving DecidableEq

/-- The `shap_values` mapping of `/api/predict`, in feature declaration
order: `impact` is `"risk_increasing"` if the contribution is `> 0`,
else `"risk_decreasing"`. The (opaque) SHAP contributions are the input
list `sv`, aligned with `FEATURE_NAMES`. -/
def shap_values (sv : List ℚ) : List ShapEntry :=
  (FEATURE_NAMES.zip sv).map
    (fun p => ⟨p.1, p.2, if 0 < p.2 then "risk_increasing"
                         else "risk_decreasing"⟩)

/-- The comparison used by `sorted(..., key=lambda x: abs(x[1]['value']),
reverse=True)`: entry `a` may come before entry `b` when
`|b.value| ≤ |a.value|`. -/
def shapLE (a b : ShapEntry) : Bool := |b.value| ≤ |a.value|

/-- The full stable descending ranking of the SHAP entries (Python's
`sorted` is a stable sort; with `reverse=True` entries with equal keys
still keep their original order). -/
def rankedFactors (sv : List ℚ) : List ShapEntry :=
  (shap_values sv).mergeSort shapLE

/-- `top_factors = sorted(shap_values.items(), ...)[:5]` in
`/api/predict`. -/
def top_5_factors (sv : List ℚ) : List ShapEntry :=
  (rankedFactors sv).take 5

/-- C9: the top-5 factors list is ranked by absolute contribution
magnitude descending; the ranking is stable, so entries with tied
magnitudes keep feature declaration order; and every factor's direction
is `"risk_increasing"` iff its contribution is strictly positive, with
contribution 0 classified `"risk_decreasing"`. -/
theorem c9_top_factors (sv : List ℚ) :
    (top_5_factors sv).Pairwise (fun a b => |b.value| ≤ |a.value|)
  ∧ (∀ a b : ShapEntry, List.Sublist [a, b] (shap_values sv) → |b.value| ≤ |a.value| →
      List.Sublist [a, b] (rankedFactors sv))
  ∧ top_5_factors sv = (rankedFactors sv).take 5
  ∧ (∀ e ∈ top_5_factors sv, e.impact =
      if 0 < e.value then "risk_increasing" else "risk_decreasing") := by
  have htrans : ∀ a b c : ShapEntry, shapLE a b → shapLE b c → shapLE a c := by
    intro a b c hab hbc
    simp only [shapLE, decide_eq_true_eq] at *
    exact le_trans hbc hab
  have htotal : ∀ a b : ShapEntry, shapLE a b || shapLE b a := by
    intro a b
    simp only [shapLE, Bool.or_eq_true, decide_eq_true_eq]
    exact le_total _ _
  refine ⟨?_, ?_, rfl, ?_⟩
  · have hs : (rankedFactors sv).Pairwise (fun a b => shapLE a b = true) :=
      List.sorted_mergeSort htrans htotal (shap_values sv)
    have := List.Pairwise.sublist (List.take_sublist 5 (rankedFactors sv)) hs
    exact this.imp (fun h => by simpa [shapLE] using h)
  · intro a b hsub hle
    exact List.pair_sublist_mergeSort htrans htotal
      (by simpa [shapLE] using hle) hsub
  · intro e he
    have he' : e ∈ shap_values sv := by
      have h1 : e ∈ rankedFactors sv :=
        (List.take_sublist 5 (rankedFactors sv)).mem he
      exact (List.mem_mergeSort).mp h1
    simp only [shap_values, List.mem_map] at he'
    obtain ⟨p, _, rfl⟩ := he'
    rfl

/-- C9 witness: with a single contribution `1`, the sole top factor is
`checking_status` with direction `"risk_increasing"`. -/
theorem c9_top_factors_witness :
    (⟨"checking_status", 1, "risk_increasing"⟩ : ShapEntry).impact =
      (if (0 : ℚ) < 1 then "risk_increasing" else "risk_decreasing") :=
  (c9_top_factors [1]).2.2.2 ⟨"checking_status", 1, "risk_increasing"⟩
    (by simp [top_5_factors, rankedFactors, shap_values, FEATURE_NAMES])

/-- Pandas `.mean()` over a selected column: `NaN` (modelled `none`)
when the selection is empty, else sum divided by length. -/
def pandasMean (l : List ℚ) : Option ℚ :=
  if l.length = 0 then none else some (l.sum / l.length)

/-- The numeric `y_pred` column restricted to one group: rows are
(protected value, predicted label) pairs and the binary predicted label
is stored as its 0/1 numeric value. -/
def groupPredColumn (rows : List (ℤ × Bool)) (g : ℤ) : List ℚ :=
  (rows.filter fun r => r.1 = g).map fun r => if r.2 then 1 else 0

/-- `FairnessAnalyzer.calculate_disparate_impact` in `metrics.py`:
selection rates are pandas means of the group-restricted `y_pred`
column; returns 0 when the privileged rate is (exactly) 0, and otherwise
the quotient, which is `NaN` (`none`) when either group is empty. -/
def calculate_disparate_impact (rows : List (ℤ × Bool))
    (privileged unprivileged : ℤ) : Option ℚ :=
  let sr_privileged := pandasMean (groupPredColumn rows privileged)
  let sr_unprivileged := pandasMean (groupPredColumn rows unprivileged)
  if sr_privileged = some 0 then some 0
  else
    match sr_privileged, sr_unprivileged with
    | some p, some u => some (u / p)
    | _, _ => none

/-- Modelled from the spec's words: `selection_rate(g) =
mean(predicted_label == favorable_outcome)` over the records with group
value `g` (the favorable outcome being the positive prediction). -/
def selection_rate (rows : List (ℤ × Bool)) (g : ℤ) : ℚ :=
  ((rows.filter fun r => r.1 = g ∧ r.2).length : ℚ) /
    ((rows.filter fun r => r.1 = g).length : ℚ)

/-- Summing the 0/1 indicator column of a group counts its positive
predictions. -/
theorem groupPredColumn_sum (rows : List (ℤ × Bool)) (g : ℤ) :
    (groupPredColumn rows g).sum
      = ((rows.filter fun r => r.1 = g ∧ r.2).length : ℚ) := by
  induction rows with
  | nil => simp [groupPredColumn]
  | cons r t ih =>
    by_cases h1 : r.1 = g <;> by_cases h2 : r.2 <;>
      simp [groupPredColumn, List.filter_cons, h1, h2] at ih ⊢ <;>
      simp [ih] <;> ring

/-- The pandas mean of a nonempty group's 0/1 prediction column is the
spec's selection rate. -/
theorem pandasMean_groupPredColumn (rows : List (ℤ × Bool)) (g : ℤ)
    (h : (rows.filter fun r => r.1 = g).length ≠ 0) :
    pandasMean (groupPredColumn rows g) = some (selection_rate rows g) := by
  have hlen : (groupPredColumn rows g).length
      = (rows.filter fun r => r.1 = g).length := by
    simp [groupPredColumn]
  rw [pandasMean, if_neg (by rw [hlen]; exact h), groupPredColumn_sum, hlen,
    selection_rate]

/-- C4: for nonempty groups, the disparate impact ratio is exactly the
quotient of the spec's selection rates, with the convention that a
privileged selection rate of 0 yields exactly 0 — never `NaN` and never
a division error. -/
theorem c4_disparate_impact (rows : List (ℤ × Bool))
    (privileged unprivileged : ℤ)
    (hp : (rows.filter fun r => r.1 = privileged).length ≠ 0)
    (hu : (rows.filter fun r => r.1 = unprivileged).length ≠ 0) :
    calculate_disparate_impact rows privileged unprivileged
      = some (if selection_rate rows privileged = 0 then 0
              else selection_rate rows unprivileged /
                selection_rate rows privileged) := by
  rw [calculate_disparate_impact]
  simp only [pandasMean_groupPredColumn rows privileged hp,
    pandasMean_groupPredColumn rows unprivileged hu]
  by_cases h0 : selection_rate rows privileged = 0
  · rw [if_pos (by rw [h0]), if_pos h0]
  · rw [if_neg (by simpa using h0), if_neg h0]

/-- C4 witness: a batch with one privileged record (selected) and one
unprivileged record (not selected). -/
theorem c4_disparate_impact_witness :
    calculate_disparate_impact [((0 : ℤ), true), (1, false)] 0 1
      = some (if selection_rate [((0 : ℤ), true), (1, false)] 0 = 0 then 0
              else selection_rate [((0 : ℤ), true), (1, false)] 1 /
                selection_rate [((0 : ℤ), true), (1, false)] 0) :=
  c4_disparate_impact [((0 : ℤ), true), (1, false)] 0 1
    (by decide) (by decide)

/-- `get_tpr` inside `calculate_equal_opportunity_difference`: over a
group's `(y_true, y_pred)` pairs, the true positive rate from the
confusion matrix, with 0 for an empty subset and 0 when the subset has
no positive-labeled records. -/
def get_tpr (sub : List (Bool × Bool)) : ℚ :=
  if sub.length = 0 then 0
  else
    let tp := (sub.filter fun r => r.1 ∧ r.2).length
    let fn := (sub.filter fun r => r.1 ∧ ¬ r.2).length
    if 0 < tp + fn then (tp : ℚ) / ((tp : ℚ) + (fn : ℚ)) else 0

/-- `FairnessAnalyzer.calculate_equal_opportunity_difference` in
`metrics.py`: rows are (protected value, true label, predicted label)
triples; returns `TPR(unprivileged) - TPR(privileged)`. -/
def calculate_equal_opportunity_difference (rows : List (ℤ × Bool × Bool))
    (privileged unprivileged : ℤ) : ℚ :=
  let tpr_privileged := get_tpr ((rows.filter fun r => r.1 = privileged).map Prod.snd)
  let tpr_unprivileged := get_tpr ((rows.filter fun r => r.1 = unprivileged).map Prod.snd)
  tpr_unprivileged - tpr_privileged

/-- Modelled from the spec's words: `TPR(g) = TP / (TP + FN)` restricted
to records of group `g` whose true label is the favorable outcome,
defined as 0 when the group has no positive-labeled records. -/
def claimTPR (rows : List (ℤ × Bool × Bool)) (g : ℤ) : ℚ :=
  let pos := rows.filter fun r => r.1 = g ∧ r.2.1
  if pos.length = 0 then 0
  else ((pos.filter fun r => r.2.2).length : ℚ) / (pos.length : ℚ)

/-- Splitting a group's positive-labeled records by predicted label:
`tp + fn` equals the number of positive-labeled records. -/
theorem tp_add_fn (rows : List (ℤ × Bool × Bool)) (g : ℤ) :
    (rows.filter fun r => r.1 = g ∧ r.2.1 ∧ r.2.2).length
      + (rows.filter fun r => r.1 = g ∧ r.2.1 ∧ ¬ r.2.2).length
      = (rows.filter fun r => r.1 = g ∧ r.2.1).length := by
  induction rows with
  | nil => simp
  | cons r t ih =>
    by_cases h1 : r.1 = g <;> by_cases h2 : r.2.1 <;> by_cases h3 : r.2.2 <;>
      simp [List.filter_cons, h1, h2, h3] at ih ⊢ <;> omega

/-- A group's positive-labeled records are no more numerous than the
group's records. -/
theorem filter_pos_le (rows : List (ℤ × Bool × Bool)) (g : ℤ) :
    (rows.filter fun r => r.1 = g ∧ r.2.1).length
      ≤ (rows.filter fun r => r.1 = g).length := by
  induction rows with
  | nil => simp
  | cons r t ih =>
    by_cases h1 : r.1 = g <;> by_cases h2 : r.2.1 <;>
      simp [List.filter_cons, h1, h2] at ih ⊢ <;> omega

/-- True positives of a group, counted on the projected pair column and
counted on the full rows, agree. -/
theorem tp_proj (rows : List (ℤ × Bool × Bool)) (g : ℤ) :
    (((rows.filter fun r => r.1 = g).map Prod.snd).filter
        fun r => r.1 ∧ r.2).length
      = (rows.filter fun r => r.1 = g ∧ r.2.1 ∧ r.2.2).length := by
  induction rows with
  | nil => simp
  | cons r t ih =>
    by_cases h1 : r.1 = g <;> by_cases h2 : r.2.1 <;> by_cases h3 : r.2.2 <;>
      simp [List.filter_cons, h1, h2, h3] at ih ⊢ <;> omega

/-- False negatives of a group, counted on the projected pair column and
counted on the full rows, agree. -/
theorem fn_proj (rows : List (ℤ × Bool × Bool)) (g : ℤ) :
    (((rows.filter fun r => r.1 = g).map Prod.snd).filter
        fun r => r.1 ∧ ¬ r.2).length
      = (rows.filter fun r => r.1 = g ∧ r.2.1 ∧ ¬ r.2.2).length := by
  induction rows with
  | nil => simp
  | cons r t ih =>
    by_cases h1 : r.1 = g <;> by_cases h2 : r.2.1 <;> by_cases h3 : r.2.2 <;>
      simp [List.filter_cons, h1, h2, h3] at ih ⊢ <;> omega

/-- Filtering a group's positive-labeled records by predicted label
counts its true positives. -/
theorem pos_pred_filter (rows : List (ℤ × Bool × Bool)) (g : ℤ) :
    ((rows.filter fun r => r.1 = g ∧ r.2.1).filter fun r => r.2.2).length
      = (rows.filter fun r => r.1 = g ∧ r.2.1 ∧ r.2.2).length := by
  induction rows with
  | nil => simp
  | cons r t ih =>
    by_cases h1 : r.1 = g <;> by_cases h2 : r.2.1 <;> by_cases h3 : r.2.2 <;>
      simp [List.filter_cons, h1, h2, h3] at ih ⊢ <;> omega

/-- The code's per-group TPR coincides with the spec's TPR. -/
theorem get_tpr_eq_claimTPR (rows : List (ℤ × Bool × Bool)) (g : ℤ) :
    get_tpr ((rows.filter fun r => r.1 = g).map Prod.snd) = claimTPR rows g := by
  have hsum := tp_add_fn rows g
  rw [get_tpr, claimTPR]
  simp only [tp_proj, fn_proj, pos_pred_filter]
  by_cases hempty : ((rows.filter fun r => r.1 = g).map Prod.snd).length = 0
  · rw [if_pos hempty]
    have h0 : (rows.filter fun r => r.1 = g).length = 0 := by
      simpa using hempty
    have := filter_pos_le rows g
    rw [if_pos (by omega)]
  · rw [if_neg hempty]
    by_cases hpos : 0 < (rows.filter fun r => r.1 = g ∧ r.2.1 ∧ r.2.2).length
        + (rows.filter fun r => r.1 = g ∧ r.2.1 ∧ ¬ r.2.2).length
    · rw [if_pos hpos, if_neg (by omega)]
      rw [show ((rows.filter fun r => r.1 = g ∧ r.2.1).length : ℚ)
          = ((rows.filter fun r => r.1 = g ∧ r.2.1 ∧ r.2.2).length : ℚ)
            + ((rows.filter fun r => r.1 = g ∧ r.2.1 ∧ ¬ r.2.2).length : ℚ) by
        rw [← hsum]; push_cast; ring]
    · rw [if_neg hpos, if_pos (by omega)]

/-- C5: the equal opportunity difference returned by the code is exactly
`TPR(unprivileged) - TPR(privileged)` with the spec's TPR (0 for a group
with no positive-labeled records; no exception, no NaN). -/
theorem c5_equal_opportunity (rows : List (ℤ × Bool × Bool))
    (privileged unprivileged : ℤ) :
    calculate_equal_opportunity_difference rows privileged unprivileged
      = claimTPR rows unprivileged - claimTPR rows privileged := by
  rw [calculate_equal_opportunity_difference,
    get_tpr_eq_claimTPR rows privileged, get_tpr_eq_claimTPR rows unprivileged]

/-- Pandas `Series.unique()`: distinct values in order of first
appearance (`seen` accumulates the values already emitted). -/
def uniqueAux (seen : List ℤ) : List ℤ → List ℤ
  | [] => []
  | x :: xs =>
      if x ∈ seen then uniqueAux seen xs else x :: uniqueAux (x :: seen) xs

/-- `self.data[col].unique()` in `generate_report`. -/
def uniqueVals (l : List ℤ) : List ℤ := uniqueAux [] l

/-- Number of occurrences of a value in a column. -/
def countVal (l : List ℤ) (v : ℤ) : ℕ := (l.filter fun y => y = v).length

/-- One comparison step of the mode computation: prefer the value with
the strictly larger count and, on equal counts, the smaller value. -/
def betterMode (l : List ℤ) (a b : ℤ) : ℤ :=
  if countVal l a < countVal l b ∨ (countVal l b = countVal l a ∧ b < a)
  then b else a

/-- `self.data[col].mode()[0]` in `generate_report`: pandas `mode()`
lists the maximal-frequency values in ascending order, so `[0]` is the
least value of maximal frequency. -/
def modeVal (l : List ℤ) : ℤ :=
  match uniqueVals l with
  | [] => 0
  | x :: xs => xs.foldl (betterMode l) x

theorem mem_uniqueAux (a : ℤ) (l : List ℤ) :
    ∀ seen : List ℤ, a ∈ uniqueAux seen l ↔ a ∈ l ∧ a ∉ seen := by
  induction l with
  | nil => intro seen; simp [uniqueAux]
  | cons x xs ih =>
    intro seen
    by_cases h : x ∈ seen
    · simp only [uniqueAux, if_pos h, ih, List.mem_cons]
      constructor
      · rintro ⟨h1, h2⟩
        exact ⟨Or.inr h1, h2⟩
      · rintro ⟨h1 | h1, h2⟩
        · exact (h2 (h1 ▸ h)).elim
        · exact ⟨h1, h2⟩
    · simp only [uniqueAux, if_neg h, List.mem_cons, ih]
      constructor
      · rintro (rfl | ⟨h1, h2⟩)
        · exact ⟨Or.inl rfl, h⟩
        · exact ⟨Or.inr h1, fun hs => h2 (Or.inr hs)⟩
      · rintro ⟨rfl | h1, h2⟩
        · exact Or.inl rfl
        · by_cases hax : a = x
          · exact Or.inl hax
          · exact Or.inr ⟨h1, fun hc => hc.elim hax h2⟩

theorem mem_uniqueVals (a : ℤ) (l : List ℤ) : a ∈ uniqueVals l ↔ a ∈ l := by
  simp [uniqueVals, mem_uniqueAux]

theorem nodup_uniqueAux (l : List ℤ) :
    ∀ seen : List ℤ, (uniqueAux seen l).Nodup := by
  induction l with
  | nil => intro seen; simp [uniqueAux]
  | cons x xs ih =>
    intro seen
    by_cases h : x ∈ seen
    · simpa [uniqueAux, h] using ih seen
    · have hu : uniqueAux seen (x :: xs) = x :: uniqueAux (x :: seen) xs := by
        simp [uniqueAux, h]
      rw [hu, List.nodup_cons]
      exact ⟨by simp [mem_uniqueAux], ih (x :: seen)⟩

theorem nodup_uniqueVals (l : List ℤ) : (uniqueVals l).Nodup :=
  nodup_uniqueAux l []

/-- The fold computing the mode never decreases the count, dominates
every candidate it has seen, and returns one of the candidates. -/
theorem foldl_betterMode (l : List ℤ) (xs : List ℤ) :
    ∀ init : ℤ,
      countVal l init ≤ countVal l (xs.foldl (betterMode l) init)
    ∧ (∀ v ∈ xs, countVal l v ≤ countVal l (xs.foldl (betterMode l) init))
    ∧ (xs.foldl (betterMode l) init = init ∨ xs.foldl (betterMode l) init ∈ xs) := by
  induction xs with
  | nil => intro init; simp
  | cons x t ih =>
    intro init
    have hstep : betterMode l init x = init ∨ betterMode l init x = x := by
      rw [betterMode]; split_ifs <;> simp
    have hinit : countVal l init ≤ countVal l (betterMode l init x) := by
      rw [betterMode]; split_ifs with hc
      · rcases hc with hc | hc
        · exact le_of_lt hc
        · exact le_of_eq hc.1.symm
      · exact le_rfl
    have hx : countVal l x ≤ countVal l (betterMode l init x) := by
      rw [betterMode]; split_ifs with hc
      · exact le_rfl
      · push_neg at hc
        exact hc.1
    obtain ⟨ih1, ih2, ih3⟩ := ih (betterMode l init x)
    refine ⟨le_trans hinit ih1, ?_, ?_⟩
    · intro v hv
      rcases List.mem_cons.mp hv with rfl | hv'
      · exact le_trans hx ih1
      · exact ih2 v hv'
    · rcases ih3 with heq | hmem
      · rw [List.foldl_cons, heq]
        rcases hstep with h' | h'
        · exact Or.inl h'
        · exact Or.inr (by rw [h']; exact List.mem_cons_self x t)
      · exact Or.inr (List.mem_cons_of_mem x hmem)

/-- The mode of a column with at least one value is one of its values
and has maximal frequency. -/
theorem modeVal_spec (l : List ℤ) (h : uniqueVals l ≠ []) :
    modeVal l ∈ l ∧ ∀ v ∈ l, countVal l v ≤ countVal l (modeVal l) := by
  obtain ⟨x, xs, hxx⟩ := List.exists_cons_of_ne_nil h
  have hm : modeVal l = xs.foldl (betterMode l) x := by
    rw [modeVal, hxx]
  obtain ⟨h1, h2, h3⟩ := foldl_betterMode l xs x
  constructor
  · have : modeVal l ∈ uniqueVals l := by
      rw [hxx, hm]
      rcases h3 with heq | hmem
      · rw [heq]; exact List.mem_cons_self x xs
      · exact List.mem_cons_of_mem x hmem
    exact (mem_uniqueVals _ l).mp this
  · intro v hv
    have hv' : v ∈ uniqueVals l := (mem_uniqueVals v l).mpr hv
    rw [hxx] at hv'
    rw [hm]
    rcases List.mem_cons.mp hv' with rfl | hv''
    · exact h1
    · exact h2 v hv''

/-- Removing one occurrence of a member from a duplicate-free list
shortens it by exactly one. -/
theorem filter_ne_length (l : List ℤ) (hnd : l.Nodup) (a : ℤ) (ha : a ∈ l) :
    (l.filter fun x => ¬ x = a).length = l.length - 1 := by
  induction l with
  | nil => cases ha
  | cons b t ih =>
    rw [List.nodup_cons] at hnd
    by_cases hb : b = a
    · subst hb
      have hfil : t.filter (fun x => ¬ x = b) = t := by
        apply List.filter_eq_self.mpr
        intro x hx
        simp only [decide_eq_true_eq]
        exact fun hxb => hnd.1 (hxb ▸ hx)
      rw [List.filter_cons_of_neg (by simp), hfil]
      simp
    · have hat : a ∈ t := by
        rcases List.mem_cons.mp ha with h' | h'
        · exact absurd h'.symm hb
        · exact h'
      have htlen : 1 ≤ t.length := List.length_pos.mpr (List.ne_nil_of_mem hat)
      have hih := ih hnd.2 hat
      rw [List.filter_cons_of_pos (by simpa using hb)]
      simp only [List.length_cons, hih]
      omega

/-- The per-attribute body of `FairnessAnalyzer.generate_report` in
`metrics.py`: an attribute with fewer than 2 observed group values is
skipped; otherwise the mode of the column is the privileged group and
one (group, disparate impact, equal opportunity difference) entry is
emitted per remaining observed group value. -/
def reportForCol (rows : List (ℤ × Bool × Bool)) : List (ℤ × Option ℚ × ℚ) :=
  let gvals := rows.map fun r => r.1
  let groups := uniqueVals gvals
  if groups.length < 2 then []
  else
    let priv := modeVal gvals
    (groups.filter fun g => ¬ g = priv).map fun u =>
      (u, calculate_disparate_impact (rows.map fun r => (r.1, r.2.2)) priv u,
          calculate_equal_opportunity_difference rows priv u)

/-- `FairnessAnalyzer.generate_report`: one pass over all protected
columns (each listed with its per-row group values), sharing the
`y_true` and `y_pred` columns. -/
def generate_report (cols : List (String × List ℤ)) (yTrue yPred : List Bool) :
    List (String × ℤ × Option ℚ × ℚ) :=
  cols.flatMap fun c =>
    (reportForCol (c.2.zip (yTrue.zip yPred))).map fun e => (c.1, e)

/-- Rebuilding rows from their three projected columns is the identity. -/
theorem zip_proj (rows : List (ℤ × Bool × Bool)) :
    (rows.map fun r => r.1).zip
        (((rows.map fun r => r.2.1)).zip (rows.map fun r => r.2.2)) = rows := by
  induction rows with
  | nil => rfl
  | cons r t ih => simp [ih]

/-- C6: for every protected attribute with at least 2 observed group
values, the report generator takes the most frequent (modal) observed
value as the privileged group and emits exactly one entry per remaining
observed group value; attributes are processed independently in one
pass. -/
theorem c6_fairness_report (rows : List (ℤ × Bool × Bool))
    (h2 : 2 ≤ (uniqueVals (rows.map fun r => r.1)).length) :
    ((reportForCol rows).map fun e => e.1)
        = ((uniqueVals (rows.map fun r => r.1)).filter
            fun v => ¬ v = modeVal (rows.map fun r => r.1))
  ∧ (reportForCol rows).length
        = (uniqueVals (rows.map fun r => r.1)).length - 1
  ∧ modeVal (rows.map fun r => r.1) ∈ (rows.map fun r => r.1)
  ∧ (∀ v ∈ rows.map fun r => r.1,
      countVal (rows.map fun r => r.1) v
        ≤ countVal (rows.map fun r => r.1) (modeVal (rows.map fun r => r.1)))
  ∧ (∀ name : String,
      generate_report [(name, rows.map fun r => r.1)]
          (rows.map fun r => r.2.1) (rows.map fun r => r.2.2)
        = (reportForCol rows).map fun e => (name, e)) := by
  have hne : uniqueVals (rows.map fun r => r.1) ≠ [] := by
    intro hnil
    rw [hnil] at h2
    simp at h2
  obtain ⟨hmem, hmax⟩ := modeVal_spec (rows.map fun r => r.1) hne
  have hmodeu : modeVal (rows.map fun r => r.1)
      ∈ uniqueVals (rows.map fun r => r.1) :=
    (mem_uniqueVals _ _).mpr hmem
  have hrep : reportForCol rows
      = ((uniqueVals (rows.map fun r => r.1)).filter
          fun g => ¬ g = modeVal (rows.map fun r => r.1)).map fun u =>
            (u, calculate_disparate_impact (rows.map fun r => (r.1, r.2.2))
                  (modeVal (rows.map fun r => r.1)) u,
                calculate_equal_opportunity_difference rows
                  (modeVal (rows.map fun r => r.1)) u) := by
    rw [reportForCol, if_neg (by omega)]
  refine ⟨?_, ?_, hmem, hmax, ?_⟩
  · rw [hrep, List.map_map]
    exact List.map_id _
  · rw [hrep, List.length_map,
      filter_ne_length _ (nodup_uniqueVals _) _ hmodeu]
  · intro name
    simp [generate_report, zip_proj]

/-- C6 witness: a batch with groups 0 (twice, hence privileged) and 1
yields exactly one report entry. -/
theorem c6_fairness_report_witness :
    (reportForCol [((0 : ℤ), true, true), ((0 : ℤ), true, false),
        ((1 : ℤ), false, true)]).length
      = (uniqueVals ([((0 : ℤ), true, true), ((0 : ℤ), true, false),
          ((1 : ℤ), false, true)].map fun r => r.1)).length - 1 :=
  (c6_fairness_report
      [((0 : ℤ), true, true), ((0 : ℤ), true, false), ((1 : ℤ), false, true)]
      (by decide)).2.1

/-- Abstract model of the hashing and pseudo-random primitives used by
`PANApiClient._mock_profile`: `md5hex pan` stands for
`int(hashlib.md5(pan.encode()).hexdigest(), 16)`, and `draw seed i`
(resp. `unifFrac seed i`, a value in `[0,1)`) is the `i`-th integer
(resp. uniform) output of the numpy generator `default_rng(seed)` —
deterministic functions of the seed and the call position, which is
exactly the determinism contract of `numpy.random.default_rng`. -/
structure RngModel where
  md5hex : String → ℕ
  draw : ℕ → ℕ → ℕ
  unifFrac : ℕ → ℕ → ℚ

/-- `np.random.default_rng(seed)`: a fresh generator state, a (seed,
next call position) pair. -/
def default_rng (seed : ℕ) : ℕ × ℕ := (seed, 0)

/-- Advance the generator past one call. -/
def rngNext (s : ℕ × ℕ) : ℕ × ℕ := (s.1, s.2 + 1)

/-- `rng.integers(lo, hi)`: a value in `[lo, hi)`. -/
def rngInt (R : RngModel) (s : ℕ × ℕ) (lo hi : ℤ) : ℤ :=
  lo + (R.draw s.1 s.2 % (hi - lo).toNat : ℕ)

/-- `rng.choice(options)` over integer options. -/
def rngChoice (R : RngModel) (s : ℕ × ℕ) (l : List ℤ) : ℤ :=
  l.getD (R.draw s.1 s.2 % l.length) 0

/-- `rng.choice(options)` over string options. -/
def rngChoiceStr (R : RngModel) (s : ℕ × ℕ) (l : List String) : String :=
  l.getD (R.draw s.1 s.2 % l.length) ""

/-- `rng.uniform(lo, hi)`. -/
def rngUniform (R : RngModel) (s : ℕ × ℕ) (lo hi : ℚ) : ℚ :=
  lo + (hi - lo) * R.unifFrac s.1 s.2

/-- Python `round(x, 2)`. -/
def round2 (q : ℚ) : ℚ := (round (q * 100) : ℤ) / 100

/-- Python `f"{n:02d}"` for the day/month fields. -/
def pad2 (n : ℤ) : String := if n < 10 then "0" ++ toString n else toString n

/-- The `CreditProfile` dataclass of `pan_api_client.py`. -/
structure CreditProfile where
  pan : String
  name : String
  date_of_birth : String
  pan_verified : Bool
  source : String
  checking_status : ℤ
  duration : ℤ
  credit_history : ℤ
  purpose : ℤ
  credit_amount : ℤ
  savings_status : ℤ
  employment : ℤ
  installment_commitment : ℤ
  personal_status : ℤ
  other_parties : ℤ
  residence_since : ℤ
  property_magnitude : ℤ
  age : ℤ
  other_payment_plans : ℤ
  housing : ℤ
  existing_credits : ℤ
  job : ℤ
  num_dependents : ℤ
  own_telephone : ℤ
  foreign_worker : ℤ
  active_loans : ℤ
  credit_utilization : ℚ
  payment_history_score : ℚ
  monthly_income : ℚ
  foir : ℚ
  perfios_risk_band : String
  error : Option String
deriving DecidableEq

/-- `CreditProfile.to_model_input`: exactly the 20 model features, in
`FEATURE_NAMES` order. -/
def CreditProfile.to_model_input (p : CreditProfile) : List (String × ℤ) :=
  [("checking_status", p.checking_status), ("duration", p.duration),
   ("credit_history", p.credit_history), ("purpose", p.purpose),
   ("credit_amount", p.credit_amount), ("savings_status", p.savings_status),
   ("employment", p.employment),
   ("installment_commitment", p.installment_commitment),
   ("personal_status", p.personal_status), ("other_parties", p.other_parties),
   ("residence_since", p.residence_since),
   ("property_magnitude", p.property_magnitude), ("age", p.age),
   ("other_payment_plans", p.other_payment_plans), ("housing", p.housing),
   ("existing_credits", p.existing_credits), ("job", p.job),
   ("num_dependents", p.num_dependents), ("own_telephone", p.own_telephone),
   ("foreign_worker", p.foreign_worker)]

/-- The first-name pool of `_mock_profile`. -/
def first_names : List String :=
  ["Raj", "Amit", "Priya", "Sunita", "Vikram", "Anjali", "Ravi", "Deepa"]

/-- The last-name pool of `_mock_profile`. -/
def last_names : List String :=
  ["Sharma", "Patel", "Singh", "Kumar", "Gupta", "Verma", "Joshi", "Nair"]

/-- `PANApiClient._mock_profile`: seeds a fresh generator with
`md5(pan) % 2**31` and draws every profile field in the source's call
order. -/
def mock_profile (R : RngModel) (pan : String) : CreditProfile :=
  let seed := R.md5hex pan % 2 ^ 31
  let s0 := default_rng seed
  let age := rngInt R s0 19 75
  let s1 := rngNext s0
  let first := rngChoiceStr R s1 first_names
  let s2 := rngNext s1
  let last := rngChoiceStr R s2 last_names
  let s3 := rngNext s2
  let dd := rngInt R s3 1 28
  let s4 := rngNext s3
  let mm := rngInt R s4 1 12
  let s5 := rngNext s4
  let cs := rngChoice R s5 [0, 1, 2, 3]
  let s6 := rngNext s5
  let dur := rngInt R s6 6 72
  let s7 := rngNext s6
  let ch := rngChoice R s7 [0, 1, 2, 3, 4]
  let s8 := rngNext s7
  let pur := rngChoice R s8 [0, 1, 2, 3, 4, 5, 6, 7, 8, 9]
  let s9 := rngNext s8
  let ca := rngInt R s9 500 15000
  let s10 := rngNext s9
  let ss := rngChoice R s10 [0, 1, 2, 3, 4]
  let s11 := rngNext s10
  let emp := rngChoice R s11 [0, 1, 2, 3, 4]
  let s12 := rngNext s11
  let ic := rngInt R s12 1 5
  let s13 := rngNext s12
  let ps := rngChoice R s13 [0, 1, 2, 3]
  let s14 := rngNext s13
  let op := rngChoice R s14 [0, 1, 2]
  let s15 := rngNext s14
  let rs := rngInt R s15 1 5
  let s16 := rngNext s15
  let pm := rngChoice R s16 [0, 1, 2, 3]
  let s17 := rngNext s16
  let opp := rngChoice R s17 [0, 1, 2]
  let s18 := rngNext s17
  let hou := rngChoice R s18 [0, 1, 2]
  let s19 := rngNext s18
  let ec := rngInt R s19 1 5
  let s20 := rngNext s19
  let job := rngChoice R s20 [0, 1, 2, 3]
  let s21 := rngNext s20
  let nd := rngInt R s21 1 3
  let s22 := rngNext s21
  let tel := rngChoice R s22 [0, 1]
  let s23 := rngNext s22
  let fw := rngChoice R s23 [0, 1]
  let s24 := rngNext s23
  let al := rngInt R s24 0 6
  let s25 := rngNext s24
  let cu := round2 (rngUniform R s25 (1 / 10) (9 / 10))
  let s26 := rngNext s25
  let phs := round2 (rngUniform R s26 (4 / 10) 1)
  { pan := pan
    name := first ++ " " ++ last
    date_of_birth := pad2 dd ++ "-" ++ pad2 mm ++ "-" ++ toString (2024 - age)
    pan_verified := true
    source := "mock"
    checking_status := cs
    duration := dur
    credit_history := ch
    purpose := pur
    credit_amount := ca
    savings_status := ss
    employment := emp
    installment_commitment := ic
    personal_status := ps
    other_parties := op
    residence_since := rs
    property_magnitude := pm
    age := age
    other_payment_plans := opp
    housing := hou
    existing_credits := ec
    job := job
    num_dependents := nd
    own_telephone := tel
    foreign_worker := fw
    active_loans := al
    credit_utilization := cu
    payment_history_score := phs
    monthly_income := 0
    foir := 0
    perfios_risk_band := ""
    error := none }

/-- C10: the mock bureau profile depends on the PAN only through the
seed `md5(pan) % 2**31`: any two PANs with the same seed (in particular,
two calls with the same PAN, in any two runs) yield identical model
features, name, date of birth and all other bureau fields — everything
but the echoed `pan` string itself. -/
theorem c10_mock_deterministic (R : RngModel) (pan₁ pan₂ : String)
    (h : R.md5hex pan₁ % 2 ^ 31 = R.md5hex pan₂ % 2 ^ 31) :
    (mock_profile R pan₁).to_model_input
        = (mock_profile R pan₂).to_model_input
  ∧ (mock_profile R pan₁).name = (mock_profile R pan₂).name
  ∧ (mock_profile R pan₁).date_of_birth
        = (mock_profile R pan₂).date_of_birth
  ∧ mock_profile R pan₁ = { mock_profile R pan₂ with pan := pan₁ } := by
  have hmain : mock_profile R pan₁ = { mock_profile R pan₂ with pan := pan₁ } := by
    simp only [mock_profile]
    rw [h]
  refine ⟨?_, ?_, ?_, hmain⟩ <;> rw [hmain] <;> rfl

/-- C10 witness: instantiate with a concrete primitive model whose hash
is the string length, and two distinct same-length PANs. -/
theorem c10_mock_deterministic_witness :
    mock_profile ⟨fun p => p.length, fun seed i => seed + i, fun _ _ => 1 / 2⟩
        "ABCDE1234F"
      = { mock_profile
            ⟨fun p => p.length, fun seed i => seed + i, fun _ _ => 1 / 2⟩
            "FGHIJ5678K" with pan := "ABCDE1234F" } :=
  (c10_mock_deterministic
      ⟨fun p => p.length, fun seed i => seed + i, fun _ _ => 1 / 2⟩
      "ABCDE1234F" "FGHIJ5678K" (by decide)).2.2.2
